import Mathlib

/-!
Verification of the progression tracker, step sequencer and arithmetic
generator of the keisan drill (src/assets/js/app.js), shallowly embedded
in Lean. JS numbers that only ever hold non-negative integers are
modelled as Nat; answers that may be negative in principle are Int.
-/

set_option maxRecDepth 8192

namespace Keisan

/-! SETTINGS constants from app.js (lines 16-40). -/

def unlockHihatAt : Nat := 10
def unlockSnareAt : Nat := 20
def stepsPerBar : Nat := 16
def barsCycle : Nat := 64
def bgmStageMax : Nat := 3
def bgmSwitchEveryCorrect : Nat := 5
def stageClearEveryCorrect : Nat := 20
def muteOnWrongSteps : Nat := 4

/-- Difficulty profile record, as returned by difficultyForStage. -/
structure Diff where
  min : Nat
  max : Nat
  mode : String
  allowNegative : Bool
deriving DecidableEq, Repr

/-- Difficulty presets by stage (app.js lines 43-48). Stage 3+ uses a formula. -/
def difficultyForStage (stage : Nat) : Diff :=
  if stage ≤ 0 then { min := 1, max := 20, mode := "sub", allowNegative := false }
  else if stage = 1 then { min := 1, max := 30, mode := "mix", allowNegative := false }
  else if stage = 2 then { min := 2, max := 30, mode := "mix", allowNegative := false }
  else { min := 2, max := 40 + (stage - 3) * 10, mode := "mix", allowNegative := false }

/-- The mutable game state object (app.js lines 95-120). DOM and audio
handles are omitted; the drum engine's private pulse state is modelled
separately as PulseState. -/
structure GameState where
  currentAnswer : Int
  correctTotal : Nat
  stageCorrect : Nat
  difficultyStage : Nat
  drumLevel : Nat
  bgmStage : Nat
  muteSteps : Nat
  step : Nat
  barCounter : Nat
  soundEnabled : Bool
  diff : Diff
deriving DecidableEq, Repr

/-- computeDrumLevel (app.js lines 173-177). -/
def computeDrumLevel (stageCorrect : Nat) : Nat :=
  if stageCorrect ≥ unlockSnareAt then 2
  else if stageCorrect ≥ unlockHihatAt then 1
  else 0

/-- computeBgmStage (app.js lines 179-182): floor division then cap. -/
def computeBgmStage (stageCorrect : Nat) : Nat :=
  min (stageCorrect / bgmSwitchEveryCorrect) bgmStageMax

/-- resetTransport (app.js lines 555-558). -/
def resetTransport (s : GameState) : GameState :=
  { s with step := 0, barCounter := 0 }

/-- setBgmStageFromStageCorrect (app.js lines 568-575). Returns the new
state and whether the bgm-switch cue was played. -/
def setBgmStageFromStageCorrect (s : GameState) : GameState × Bool :=
  if computeBgmStage s.stageCorrect = s.bgmStage then (s, false)
  else (resetTransport { s with bgmStage := computeBgmStage s.stageCorrect }, true)

/-- stageClear (app.js lines 577-590). -/
def stageClear (s : GameState) : GameState :=
  resetTransport
    { s with
      difficultyStage := s.difficultyStage + 1,
      diff := difficultyForStage (s.difficultyStage + 1),
      stageCorrect := 0,
      drumLevel := 0,
      bgmStage := 0 }

/-- Result of updateOnCorrect: the new state plus which cues fired. -/
structure CorrectResult where
  state : GameState
  bgmSwitched : Bool
  stageCleared : Bool
deriving DecidableEq, Repr

/-- First half of updateOnCorrect (app.js lines 593-597): increment both
counters, then recompute the drum level from the new stageCorrect. -/
def bumpOnCorrect (s : GameState) : GameState :=
  { s with
    correctTotal := s.correctTotal + 1,
    stageCorrect := s.stageCorrect + 1,
    drumLevel := computeDrumLevel (s.stageCorrect + 1) }

/-- updateOnCorrect (app.js lines 592-606). -/
def updateOnCorrect (s : GameState) : CorrectResult :=
  if (setBgmStageFromStageCorrect (bumpOnCorrect s)).1.correctTotal %
      stageClearEveryCorrect = 0 then
    { state := stageClear (setBgmStageFromStageCorrect (bumpOnCorrect s)).1,
      bgmSwitched := (setBgmStageFromStageCorrect (bumpOnCorrect s)).2,
      stageCleared := true }
  else
    { state := (setBgmStageFromStageCorrect (bumpOnCorrect s)).1,
      bgmSwitched := (setBgmStageFromStageCorrect (bumpOnCorrect s)).2,
      stageCleared := false }

/-- resetProgression (app.js lines 608-622). muteSteps is not touched. -/
def resetProgression (s : GameState) : GameState :=
  resetTransport
    { s with
      correctTotal := 0,
      stageCorrect := 0,
      difficultyStage := 0,
      diff := difficultyForStage 0,
      drumLevel := 0,
      bgmStage := 0 }

/-- The mute-window part of playWrongFx (app.js lines 283-293): mute the
next steps only when SFX is enabled and the sequencer is running. -/
def playWrongFx (running : Bool) (s : GameState) : GameState :=
  if s.soundEnabled && running then { s with muteSteps := muteOnWrongSteps } else s

/-- The wrong-answer branch of checkAnswer (app.js lines 646-649):
resetProgression then playWrongFx. -/
def onWrong (running : Bool) (s : GameState) : GameState :=
  playWrongFx running (resetProgression s)

/-- Initial state (app.js lines 95-120 and 721-722): the literal state
object, with drumLevel and bgmStage recomputed from stageCorrect = 0. -/
def initState : GameState :=
  { currentAnswer := 0,
    correctTotal := 0,
    stageCorrect := 0,
    difficultyStage := 0,
    drumLevel := computeDrumLevel 0,
    bgmStage := computeBgmStage 0,
    muteSteps := 0,
    step := 0,
    barCounter := 0,
    soundEnabled := false,
    diff := difficultyForStage 0 }

/-- One correct-answer event, keeping only the state. -/
def applyCorrect (s : GameState) : GameState :=
  (updateOnCorrect s).state

/-! The drum engine's step sequencer and UI-pulse queue
(createDrumEngine, app.js lines 315-561). -/

/-- Merged hit flags for one visual pulse (uiPulseHits, app.js line 431). -/
structure Hits where
  kick : Bool
  snare : Bool
deriving DecidableEq, Repr

/-- The pulse-notification state of the drum engine: how many timers are
pending (the code keeps a single handle; we count so that the at-most-one
property is a theorem, not a typing accident) and the merged hit flags. -/
structure PulseState where
  pendingTimers : Nat
  hits : Hits
deriving DecidableEq, Repr

/-- queueUiPulse (app.js lines 433-471): merge the hit flags, and set a
new timer only when none is pending. -/
def queueUiPulse (ps : PulseState) (h : Hits) : PulseState :=
  if ps.pendingTimers ≠ 0 then
    { ps with hits := { kick := ps.hits.kick || h.kick, snare := ps.hits.snare || h.snare } }
  else
    { pendingTimers := ps.pendingTimers + 1,
      hits := { kick := ps.hits.kick || h.kick, snare := ps.hits.snare || h.snare } }

/-- The timer callback body of queueUiPulse (app.js lines 444-470): the
timer handle is cleared, the merged hits are delivered if the engine is
still running and discarded otherwise. -/
def firePulseTimer (running : Bool) (ps : PulseState) : PulseState × Option Hits :=
  if running then
    ({ pendingTimers := ps.pendingTimers - 1, hits := { kick := false, snare := false } },
      some ps.hits)
  else
    ({ pendingTimers := ps.pendingTimers - 1, hits := { kick := false, snare := false } },
      none)

/-- The pulse-queue part of stop (app.js lines 549-551). -/
def stopPulse (_ps : PulseState) : PulseState :=
  { pendingTimers := 0, hits := { kick := false, snare := false } }

/-- Transport advance shared by both branches of scheduleStep
(app.js lines 478-482 and 514-518). -/
def advanceTransport (s : GameState) : GameState :=
  if s.step + 1 ≥ stepsPerBar then
    { s with step := 0, barCounter := (s.barCounter + 1) % barsCycle }
  else
    { s with step := s.step + 1 }

/-- Kick pattern (app.js lines 488-492). -/
def kickHitOn (step stage : Nat) : Bool :=
  (step % 4 == 0) ||
  (decide (stage ≥ 1) && (step == 10 || step == 14)) ||
  (decide (stage ≥ 2) && step == 7) ||
  (decide (stage ≥ 3) && (step == 3 || step == 11))

/-- Hi-hat pattern (app.js line 497), before the beat-level gate. -/
def hatHitOn (step stage : Nat) : Bool :=
  if stage ≥ 3 then true else step % 2 == 0

/-- Snare pattern (app.js lines 503-504), before the beat-level gate. -/
def snareHitOn (step bar stage : Nat) : Bool :=
  (step == 4 || step == 12) ||
  (decide (stage ≥ 3) && step == 15 && bar % 4 == 3)

/-- Everything one scheduleStep call produces: the new game state, the new
pulse state, which voices were scheduled, and whether queueUiPulse ran. -/
structure SchedResult where
  state : GameState
  pulse : PulseState
  kick : Bool
  hihat : Bool
  snare : Bool
  pulseEnqueued : Bool
deriving DecidableEq, Repr

/-- scheduleStep (app.js lines 473-519). -/
def scheduleStep (s : GameState) (ps : PulseState) : SchedResult :=
  if s.muteSteps > 0 then
    { state := advanceTransport { s with muteSteps := s.muteSteps - 1 },
      pulse := ps, kick := false, hihat := false, snare := false, pulseEnqueued := false }
  else
    { state := advanceTransport s,
      pulse :=
        if kickHitOn s.step s.bgmStage ||
            (decide (s.drumLevel ≥ 2) && snareHitOn s.step s.barCounter s.bgmStage) then
          queueUiPulse ps
            { kick := kickHitOn s.step s.bgmStage,
              snare := decide (s.drumLevel ≥ 2) && snareHitOn s.step s.barCounter s.bgmStage }
        else ps,
      kick := kickHitOn s.step s.bgmStage,
      hihat := decide (s.drumLevel ≥ 1) && hatHitOn s.step s.bgmStage,
      snare := decide (s.drumLevel ≥ 2) && snareHitOn s.step s.barCounter s.bgmStage,
      pulseEnqueued :=
        kickHitOn s.step s.bgmStage ||
        (decide (s.drumLevel ≥ 2) && snareHitOn s.step s.barCounter s.bgmStage) }

/-- One sequencer step viewed as a transition on (game state, pulse state). -/
def schedNext (x : GameState × PulseState) : GameState × PulseState :=
  ((scheduleStep x.1 x.2).state, (scheduleStep x.1 x.2).pulse)

/-! Answer parsing and submission (app.js lines 127-132 and 630-650). -/

/-- Result domain of parseAnswer: null, NaN, or a number. -/
inductive Parsed where
  | null : Parsed
  | nan : Parsed
  | num : Int → Parsed
deriving DecidableEq, Repr

/-- The trim of parseAnswer (app.js line 128): strip leading and trailing
whitespace from the character list. -/
def trimChars (cs : List Char) : List Char :=
  ((cs.dropWhile Char.isWhitespace).reverse.dropWhile Char.isWhitespace).reverse

/-- The regex test of parseAnswer (app.js line 130): an optional leading
minus sign followed by one or more ASCII digits, nothing else. -/
def isIntLitChars : List Char → Bool
  | [] => false
  | '-' :: rest => !rest.isEmpty && rest.all Char.isDigit
  | cs => cs.all Char.isDigit

/-- Numeric value of a digit list. -/
def natOfDigits (cs : List Char) : Nat :=
  cs.foldl (fun acc c => acc * 10 + (c.toNat - 48)) 0

/-- Value of a matched integer literal. -/
def intLitValueChars : List Char → Int
  | '-' :: rest => -(natOfDigits rest : Int)
  | cs => (natOfDigits cs : Int)

/-- parseAnswer (app.js lines 127-132). -/
def parseAnswer (raw : String) : Parsed :=
  if trimChars raw.data = [] then Parsed.null
  else if !isIntLitChars (trimChars raw.data) then Parsed.nan
  else Parsed.num (intLitValueChars (trimChars raw.data))

/-- Outcome of one checkAnswer call. -/
inductive Outcome where
  | rejected : Outcome
  | correct : Outcome
  | wrong : Outcome
deriving DecidableEq, Repr

/-- checkAnswer (app.js lines 630-650). The delayed newProblem call on the
correct path only replaces currentAnswer later and is modelled separately. -/
def checkAnswer (running : Bool) (s : GameState) (raw : String) : GameState × Outcome :=
  match parseAnswer raw with
  | Parsed.null => (s, Outcome.rejected)
  | Parsed.nan => (s, Outcome.rejected)
  | Parsed.num v =>
    if v = s.currentAnswer then ((updateOnCorrect s).state, Outcome.correct)
    else (onWrong running s, Outcome.wrong)

/-! The arithmetic generator (app.js lines 125-171). -/

/-- randInt (app.js line 125): Math.floor(Math.random()*(max-min+1))+min.
The random draw is an arbitrary Nat reduced modulo the range width, so
the result lies in [min, max] whenever min ≤ max. -/
def randInt (lo hi : Nat) (r : Nat) : Nat :=
  lo + r % (hi - lo + 1)

/-- One problem's worth of random draws, one per randInt call site. -/
structure Rand where
  rMode : Nat
  rA : Nat
  rB : Nat
  rK : Nat
  rB2 : Nat
deriving Repr

/-- pickMode (app.js lines 134-146): operations gated by difficulty stage. -/
def pickMode (s : GameState) (r : Nat) : String :=
  if s.diff.mode ≠ "mix" then s.diff.mode
  else
    if s.difficultyStage ≤ 0 then
      (["sub"]).getD (randInt 0 0 r) "add"
    else if s.difficultyStage = 1 then
      (["add", "sub"]).getD (randInt 0 1 r) "add"
    else if s.difficultyStage = 2 then
      (["add", "sub", "mul"]).getD (randInt 0 2 r) "add"
    else
      (["add", "sub", "mul", "div"]).getD (randInt 0 3 r) "add"

/-- A generated problem. Operands are non-negative in every reachable
profile; the answer may in principle be negative, hence Int. -/
structure Problem where
  a : Nat
  b : Nat
  op : String
  answer : Int
deriving DecidableEq, Repr

/-- buildProblem (app.js lines 148-171). -/
def buildProblem (s : GameState) (rnd : Rand) : Problem :=
  if pickMode s rnd.rMode = "add" then
    { a := randInt s.diff.min s.diff.max rnd.rA,
      b := randInt s.diff.min s.diff.max rnd.rB,
      op := "+",
      answer := (randInt s.diff.min s.diff.max rnd.rA : Int) +
        (randInt s.diff.min s.diff.max rnd.rB : Int) }
  else if pickMode s rnd.rMode = "sub" then
    if !s.diff.allowNegative &&
        decide (randInt s.diff.min s.diff.max rnd.rA < randInt s.diff.min s.diff.max rnd.rB) then
      { a := randInt s.diff.min s.diff.max rnd.rB,
        b := randInt s.diff.min s.diff.max rnd.rA,
        op := "−",
        answer := (randInt s.diff.min s.diff.max rnd.rB : Int) -
          (randInt s.diff.min s.diff.max rnd.rA : Int) }
    else
      { a := randInt s.diff.min s.diff.max rnd.rA,
        b := randInt s.diff.min s.diff.max rnd.rB,
        op := "−",
        answer := (randInt s.diff.min s.diff.max rnd.rA : Int) -
          (randInt s.diff.min s.diff.max rnd.rB : Int) }
  else if pickMode s rnd.rMode = "mul" then
    { a := randInt s.diff.min s.diff.max rnd.rA,
      b := randInt s.diff.min s.diff.max rnd.rB,
      op := "×",
      answer := (randInt s.diff.min s.diff.max rnd.rA : Int) *
        (randInt s.diff.min s.diff.max rnd.rB : Int) }
  else if pickMode s rnd.rMode = "div" then
    { a := randInt s.diff.min s.diff.max rnd.rB2 * randInt s.diff.min s.diff.max rnd.rK,
      b := randInt s.diff.min s.diff.max rnd.rB2,
      op := "÷",
      answer := (randInt s.diff.min s.diff.max rnd.rK : Int) }
  else
    { a := randInt s.diff.min s.diff.max rnd.rA,
      b := randInt s.diff.min s.diff.max rnd.rB,
      op := "+",
      answer := (randInt s.diff.min s.diff.max rnd.rA : Int) +
        (randInt s.diff.min s.diff.max rnd.rB : Int) }

/-! Reachable game states: the initial state closed under every operation
that mutates the state object (answer events, resets, sequencer steps,
the SFX toggle and problem renewal). -/

inductive Reachable : GameState → Prop where
  | init : Reachable initState
  | correct (s : GameState) (h : Reachable s) : Reachable (updateOnCorrect s).state
  | wrong (s : GameState) (running : Bool) (h : Reachable s) : Reachable (onWrong running s)
  | reset (s : GameState) (h : Reachable s) : Reachable (resetProgression s)
  | sched (s : GameState) (ps : PulseState) (h : Reachable s) :
      Reachable (scheduleStep s ps).state
  | toggleSound (s : GameState) (b : Bool) (h : Reachable s) :
      Reachable { s with soundEnabled := b }
  | renewProblem (s : GameState) (v : Int) (h : Reachable s) :
      Reachable { s with currentAnswer := v }

/-! Concrete sample inputs used to instantiate the theorems below. -/

/-- A state two mute steps into a mute window. -/
def exC3s : GameState := { initState with muteSteps := 2 }

/-- An idle pulse queue. -/
def exC3ps : PulseState := { pendingTimers := 0, hits := { kick := false, snare := false } }

/-- A state one correct answer away from the first stage clear. -/
def exC4s : GameState := { initState with correctTotal := 19, stageCorrect := 19 }

/-- A state whose recomputed bgm variation differs from the current one. -/
def exC5s : GameState := { initState with stageCorrect := 5 }

/-- The state after sixty consecutive correct answers: difficulty stage 3,
where division becomes selectable. -/
def exC6s : GameState := applyCorrect^[60] initState

/-- Random draws that select the division operator at stage 3. -/
def exC6rnd : Rand := { rMode := 3, rA := 0, rB := 0, rK := 0, rB2 := 0 }

/-- A state at the last step of the last bar of the cycle. -/
def exC7s : GameState := { initState with step := 15, barCounter := 63 }

/-- An idle pulse queue for the transport example. -/
def exC7ps : PulseState := { pendingTimers := 0, hits := { kick := false, snare := false } }

/-- An unmuted state on an off-beat step. -/
def exC8s : GameState := { initState with step := 1 }

/-- A pulse queue with one timer already pending. -/
def exC8ps : PulseState := { pendingTimers := 1, hits := { kick := false, snare := false } }

/-- The progression invariant: stageCorrect mirrors correctTotal modulo
the stage-clear interval, drumLevel is the recomputed beat level, and the
difficulty profile matches the difficulty stage. -/
def ProgInv (s : GameState) : Prop :=
  s.stageCorrect = s.correctTotal % stageClearEveryCorrect ∧
  s.drumLevel = computeDrumLevel s.stageCorrect ∧
  s.diff = difficultyForStage s.difficultyStage

/-! Helper lemmas. -/

lemma advanceTransport_muteSteps (s : GameState) :
    (advanceTransport s).muteSteps = s.muteSteps := by
  unfold advanceTransport; split <;> rfl

lemma advanceTransport_scores (s : GameState) :
    (advanceTransport s).correctTotal = s.correctTotal ∧
    (advanceTransport s).stageCorrect = s.stageCorrect ∧
    (advanceTransport s).drumLevel = s.drumLevel ∧
    (advanceTransport s).difficultyStage = s.difficultyStage ∧
    (advanceTransport s).diff = s.diff := by
  unfold advanceTransport; split <;> exact ⟨rfl, rfl, rfl, rfl, rfl⟩

lemma setBgmBump_correctTotal (s : GameState) :
    (setBgmStageFromStageCorrect (bumpOnCorrect s)).1.correctTotal = s.correctTotal + 1 := by
  unfold setBgmStageFromStageCorrect bumpOnCorrect resetTransport; split <;> rfl

lemma setBgmBump_stageCorrect (s : GameState) :
    (setBgmStageFromStageCorrect (bumpOnCorrect s)).1.stageCorrect = s.stageCorrect + 1 := by
  unfold setBgmStageFromStageCorrect bumpOnCorrect resetTransport; split <;> rfl

lemma setBgmBump_drumLevel (s : GameState) :
    (setBgmStageFromStageCorrect (bumpOnCorrect s)).1.drumLevel =
      computeDrumLevel (s.stageCorrect + 1) := by
  unfold setBgmStageFromStageCorrect bumpOnCorrect resetTransport; split <;> rfl

lemma setBgmBump_difficultyStage (s : GameState) :
    (setBgmStageFromStageCorrect (bumpOnCorrect s)).1.difficultyStage = s.difficultyStage := by
  unfold setBgmStageFromStageCorrect bumpOnCorrect resetTransport; split <;> rfl

lemma setBgmBump_diff (s : GameState) :
    (setBgmStageFromStageCorrect (bumpOnCorrect s)).1.diff = s.diff := by
  unfold setBgmStageFromStageCorrect bumpOnCorrect resetTransport; split <;> rfl

lemma stageClear_fields (s : GameState) :
    (stageClear s).correctTotal = s.correctTotal ∧
    (stageClear s).stageCorrect = 0 ∧
    (stageClear s).drumLevel = 0 ∧
    (stageClear s).bgmStage = 0 ∧
    (stageClear s).difficultyStage = s.difficultyStage + 1 ∧
    (stageClear s).diff = difficultyForStage (s.difficultyStage + 1) ∧
    (stageClear s).step = 0 ∧
    (stageClear s).barCounter = 0 := by
  unfold stageClear resetTransport
  exact ⟨rfl, rfl, rfl, rfl, rfl, rfl, rfl, rfl⟩

lemma progInv_init : ProgInv initState :=
  ⟨rfl, rfl, rfl⟩

lemma progInv_correct (s : GameState) (h : ProgInv s) :
    ProgInv (updateOnCorrect s).state := by
  obtain ⟨h1, h2, h3⟩ := h
  unfold updateOnCorrect
  rw [setBgmBump_correctTotal]
  by_cases hc : (s.correctTotal + 1) % stageClearEveryCorrect = 0
  · rw [if_pos hc]
    obtain ⟨f1, f2, f3, _, f5, f6, _, _⟩ :=
      stageClear_fields (setBgmStageFromStageCorrect (bumpOnCorrect s)).1
    refine ⟨?_, ?_, ?_⟩
    · simp only [f2, f1, setBgmBump_correctTotal, hc]
    · simp only [f3, f2]; rfl
    · simp only [f6, f5, setBgmBump_difficultyStage]
  · rw [if_neg hc]
    refine ⟨?_, ?_, ?_⟩
    · rw [setBgmBump_stageCorrect, setBgmBump_correctTotal]
      unfold stageClearEveryCorrect at *
      omega
    · rw [setBgmBump_drumLevel, setBgmBump_stageCorrect]
    · rw [setBgmBump_diff, setBgmBump_difficultyStage, h3]

lemma progInv_resetProgression (s : GameState) :
    ProgInv (resetProgression s) :=
  ⟨rfl, rfl, rfl⟩

lemma progInv_wrong (running : Bool) (s : GameState) :
    ProgInv (onWrong running s) := by
  unfold onWrong playWrongFx
  split
  · exact ⟨rfl, rfl, rfl⟩
  · exact progInv_resetProgression s

lemma progInv_sched (s : GameState) (ps : PulseState) (h : ProgInv s) :
    ProgInv (scheduleStep s ps).state := by
  obtain ⟨h1, h2, h3⟩ := h
  unfold scheduleStep
  split
  · obtain ⟨g1, g2, g3, g4, g5⟩ :=
      advanceTransport_scores { s with muteSteps := s.muteSteps - 1 }
    exact ⟨by rw [g1, g2]; exact h1, by rw [g2, g3]; exact h2, by rw [g4, g5]; exact h3⟩
  · obtain ⟨g1, g2, g3, g4, g5⟩ := advanceTransport_scores s
    exact ⟨by rw [g1, g2]; exact h1, by rw [g2, g3]; exact h2, by rw [g4, g5]; exact h3⟩

lemma reachable_progInv (s : GameState) (h : Reachable s) : ProgInv s := by
  induction h with
  | init => exact progInv_init
  | correct s _ ih => exact progInv_correct s ih
  | wrong s running _ _ => exact progInv_wrong running s
  | reset s _ _ => exact progInv_resetProgression s
  | sched s ps _ ih => exact progInv_sched s ps ih
  | toggleSound s b _ ih => exact ih
  | renewProblem s v _ ih => exact ih

lemma computeDrumLevel_lt_two (sc : Nat) (h : sc < unlockSnareAt) :
    computeDrumLevel sc ≤ 1 := by
  unfold computeDrumLevel
  rw [if_neg (by omega)]
  split <;> omega

lemma scheduleStep_muted (s : GameState) (ps : PulseState) (h : 0 < s.muteSteps) :
    scheduleStep s ps =
      { state := advanceTransport { s with muteSteps := s.muteSteps - 1 },
        pulse := ps, kick := false, hihat := false, snare := false,
        pulseEnqueued := false } := by
  unfold scheduleStep
  rw [if_pos h]

lemma scheduleStep_unmuted (s : GameState) (ps : PulseState) (h : s.muteSteps = 0) :
    scheduleStep s ps =
      { state := advanceTransport s,
        pulse :=
          if kickHitOn s.step s.bgmStage ||
              (decide (s.drumLevel ≥ 2) && snareHitOn s.step s.barCounter s.bgmStage) then
            queueUiPulse ps
              { kick := kickHitOn s.step s.bgmStage,
                snare := decide (s.drumLevel ≥ 2) && snareHitOn s.step s.barCounter s.bgmStage }
          else ps,
        kick := kickHitOn s.step s.bgmStage,
        hihat := decide (s.drumLevel ≥ 1) && hatHitOn s.step s.bgmStage,
        snare := decide (s.drumLevel ≥ 2) && snareHitOn s.step s.barCounter s.bgmStage,
        pulseEnqueued :=
          kickHitOn s.step s.bgmStage ||
          (decide (s.drumLevel ≥ 2) && snareHitOn s.step s.barCounter s.bgmStage) } := by
  unfold scheduleStep
  rw [if_neg (by omega)]

lemma schedNext_apply (x : GameState × PulseState) :
    schedNext x = ((scheduleStep x.1 x.2).state, (scheduleStep x.1 x.2).pulse) := rfl

lemma schedNext_iter_mute (s : GameState) (ps : PulseState) :
    ∀ i, i ≤ s.muteSteps →
      (schedNext^[i] (s, ps)).1.muteSteps = s.muteSteps - i ∧
      (schedNext^[i] (s, ps)).2 = ps := by
  intro i
  induction i with
  | zero => intro _; exact ⟨by simp, rfl⟩
  | succ n ih =>
    intro hi
    obtain ⟨h1, h2⟩ := ih (by omega)
    have hpos : 0 < (schedNext^[n] (s, ps)).1.muteSteps := by omega
    rw [Function.iterate_succ_apply', schedNext_apply, scheduleStep_muted _ _ hpos]
    refine ⟨?_, h2⟩
    show (advanceTransport
      { (schedNext^[n] (s, ps)).1 with
        muteSteps := (schedNext^[n] (s, ps)).1.muteSteps - 1 }).muteSteps = s.muteSteps - (n + 1)
    rw [advanceTransport_muteSteps]
    show (schedNext^[n] (s, ps)).1.muteSteps - 1 = s.muteSteps - (n + 1)
    omega

lemma advanceTransport_step_lt (s : GameState) :
    (advanceTransport s).step < stepsPerBar := by
  unfold advanceTransport stepsPerBar
  split
  · show 0 < 16
    omega
  next hlt =>
    show s.step + 1 < 16
    omega

lemma advanceTransport_bar_lt (s : GameState) (h : s.barCounter < barsCycle) :
    (advanceTransport s).barCounter < barsCycle := by
  unfold advanceTransport
  split
  · show (s.barCounter + 1) % barsCycle < barsCycle
    exact Nat.mod_lt _ (by unfold barsCycle; omega)
  · exact h

lemma advanceTransport_wrap (s : GameState) (h : s.step = 15) :
    (advanceTransport s).step = 0 ∧
    (advanceTransport s).barCounter = (s.barCounter + 1) % barsCycle := by
  unfold advanceTransport
  rw [if_pos (by unfold stepsPerBar; omega)]
  exact ⟨rfl, rfl⟩

lemma advanceTransport_congr (s t : GameState) (h : s.step = t.step)
    (hb : s.barCounter = t.barCounter) :
    (advanceTransport s).step = (advanceTransport t).step ∧
    (advanceTransport s).barCounter = (advanceTransport t).barCounter := by
  unfold advanceTransport
  rw [h, hb]
  by_cases hc : t.step + 1 ≥ stepsPerBar
  · rw [if_pos hc, if_pos hc]
    exact ⟨rfl, rfl⟩
  · rw [if_neg hc, if_neg hc]
    exact ⟨rfl, rfl⟩

lemma scheduleStep_state_transport (s : GameState) (ps : PulseState) :
    (scheduleStep s ps).state.step = (advanceTransport s).step ∧
    (scheduleStep s ps).state.barCounter = (advanceTransport s).barCounter := by
  unfold scheduleStep
  split
  · exact advanceTransport_congr _ s rfl rfl
  · exact ⟨rfl, rfl⟩

lemma difficultyForStage_min_pos (n : Nat) :
    1 ≤ (difficultyForStage n).min := by
  unfold difficultyForStage
  split
  · show 1 ≤ 1
    omega
  · split
    · show 1 ≤ 1
      omega
    · split
      · show 1 ≤ 2
        omega
      · show 1 ≤ 2
        omega

lemma randInt_lo_le (lo hi r : Nat) : lo ≤ randInt lo hi r := by
  unfold randInt
  exact Nat.le_add_right lo _

lemma randInt_pos (lo hi r : Nat) (h : 1 ≤ lo) : randInt lo hi r ≠ 0 := by
  have := randInt_lo_le lo hi r
  omega

lemma queueUiPulse_pending_le (ps : PulseState) (h : Hits) (hp : ps.pendingTimers ≤ 1) :
    (queueUiPulse ps h).pendingTimers ≤ 1 := by
  unfold queueUiPulse
  split
  · exact hp
  next hzero =>
    show ps.pendingTimers + 1 ≤ 1
    omega

lemma reachable_applyCorrect_iter : ∀ n : Nat, Reachable (applyCorrect^[n] initState) := by
  intro n
  induction n with
  | zero => exact Reachable.init
  | succ k ih =>
    rw [Function.iterate_succ_apply']
    exact Reachable.correct _ ih

/-! Claim theorems. -/

/-- C1 counterexample: starting from the initial state, after the 20th
consecutive correct answer the resulting state's beat level is not the
snare tier, because the simultaneous stage clear resets it. -/
theorem C1_counterexample : (applyCorrect^[20] initState).drumLevel ≠ 2 := by decide

/-- C1 (amended): from the initial state, after the 10th correct answer
the beat level is the hi-hat tier, after the 19th it is still the hi-hat
tier; during the 20th the snare threshold is reached transiently
(the recomputed level is 2), but the stage clear fired by the same event
resets the beat level to the lowest tier in the resulting state, with the
difficulty stage advanced to 1. -/
theorem C1_beat_unlock_scenario :
    (applyCorrect^[10] initState).drumLevel = 1 ∧
    (applyCorrect^[19] initState).drumLevel = 1 ∧
    (bumpOnCorrect (applyCorrect^[19] initState)).drumLevel = 2 ∧
    (updateOnCorrect (applyCorrect^[19] initState)).stageCleared = true ∧
    (applyCorrect^[20] initState).drumLevel = 0 ∧
    (applyCorrect^[20] initState).difficultyStage = 1 := by decide

/-- C2 counterexample: with the sequencer running but sound effects
disabled, a wrong answer does not set the mute window. -/
theorem C2_counterexample :
    (onWrong true { initState with correctTotal := 7, stageCorrect := 7 }).muteSteps ≠
      muteOnWrongSteps := by decide

/-- C2 (amended): a wrong answer resets correctTotal, stageCorrect,
difficultyStage, the difficulty profile, drumLevel and bgmStage to their
initial values and resets the transport position; the mute window of
muteOnWrongSteps steps is set exactly when sound effects are enabled AND
the sequencer is running, and otherwise muteSteps is left unchanged. -/
theorem C2_wrong_reset (running : Bool) (s : GameState) :
    (onWrong running s).correctTotal = 0 ∧
    (onWrong running s).stageCorrect = 0 ∧
    (onWrong running s).difficultyStage = 0 ∧
    (onWrong running s).diff = difficultyForStage 0 ∧
    (onWrong running s).drumLevel = 0 ∧
    (onWrong running s).bgmStage = 0 ∧
    (onWrong running s).step = 0 ∧
    (onWrong running s).barCounter = 0 ∧
    (onWrong running s).muteSteps =
      (if s.soundEnabled && running then muteOnWrongSteps else s.muteSteps) := by
  unfold onWrong playWrongFx resetProgression resetTransport
  by_cases hc : (s.soundEnabled && running) = true <;> simp [hc]

/-- C3: with muteSteps = N, each of the next N scheduleStep calls triggers
no voice and enqueues no pulse notification, leaves the pulse queue
untouched, and still advances the transport by exactly one step while
decrementing the mute counter; after those N calls muteSteps is 0, and the
following call computes its voices normally from the patterns. -/
theorem C3_mute_window (N : Nat) (s : GameState) (ps : PulseState) (h : s.muteSteps = N) :
    (∀ i, i < N →
      (scheduleStep (schedNext^[i] (s, ps)).1 (schedNext^[i] (s, ps)).2).kick = false ∧
      (scheduleStep (schedNext^[i] (s, ps)).1 (schedNext^[i] (s, ps)).2).hihat = false ∧
      (scheduleStep (schedNext^[i] (s, ps)).1 (schedNext^[i] (s, ps)).2).snare = false ∧
      (scheduleStep (schedNext^[i] (s, ps)).1 (schedNext^[i] (s, ps)).2).pulseEnqueued = false ∧
      (scheduleStep (schedNext^[i] (s, ps)).1 (schedNext^[i] (s, ps)).2).pulse =
        (schedNext^[i] (s, ps)).2 ∧
      (scheduleStep (schedNext^[i] (s, ps)).1 (schedNext^[i] (s, ps)).2).state =
        advanceTransport
          { (schedNext^[i] (s, ps)).1 with
            muteSteps := (schedNext^[i] (s, ps)).1.muteSteps - 1 }) ∧
    (schedNext^[N] (s, ps)).1.muteSteps = 0 ∧
    (scheduleStep (schedNext^[N] (s, ps)).1 (schedNext^[N] (s, ps)).2).kick =
      kickHitOn (schedNext^[N] (s, ps)).1.step (schedNext^[N] (s, ps)).1.bgmStage ∧
    (scheduleStep (schedNext^[N] (s, ps)).1 (schedNext^[N] (s, ps)).2).hihat =
      (decide ((schedNext^[N] (s, ps)).1.drumLevel ≥ 1) &&
        hatHitOn (schedNext^[N] (s, ps)).1.step (schedNext^[N] (s, ps)).1.bgmStage) ∧
    (scheduleStep (schedNext^[N] (s, ps)).1 (schedNext^[N] (s, ps)).2).snare =
      (decide ((schedNext^[N] (s, ps)).1.drumLevel ≥ 2) &&
        snareHitOn (schedNext^[N] (s, ps)).1.step (schedNext^[N] (s, ps)).1.barCounter
          (schedNext^[N] (s, ps)).1.bgmStage) := by
  subst h
  have hz : (schedNext^[s.muteSteps] (s, ps)).1.muteSteps = 0 := by
    have := (schedNext_iter_mute s ps s.muteSteps le_rfl).1
    omega
  refine ⟨?_, hz, ?_, ?_, ?_⟩
  · intro i hi
    have hm := (schedNext_iter_mute s ps i (Nat.le_of_lt hi)).1
    have hpos : 0 < (schedNext^[i] (s, ps)).1.muteSteps := by omega
    rw [scheduleStep_muted _ _ hpos]
    exact ⟨rfl, rfl, rfl, rfl, rfl, rfl⟩
  · rw [scheduleStep_unmuted _ _ hz]
  · rw [scheduleStep_unmuted _ _ hz]
  · rw [scheduleStep_unmuted _ _ hz]

/-- C3 witness: in a concrete mute window of length two, the window
closes after two steps and the first step fires no kick. -/
theorem C3_witness :
    (schedNext^[2] (exC3s, exC3ps)).1.muteSteps = 0 ∧
    (scheduleStep (schedNext^[0] (exC3s, exC3ps)).1 (schedNext^[0] (exC3s, exC3ps)).2).kick =
      false :=
  ⟨(C3_mute_window 2 exC3s exC3ps rfl).2.1,
    ((C3_mute_window 2 exC3s exC3ps rfl).1 0 (by decide)).1⟩

/-- C4: a stage clear fires on a correct answer iff the post-increment
correctTotal is a positive multiple of the stage-clear interval, and when
it fires the difficulty stage increases by one, the profile is recomputed
for the new stage, and stageCorrect, drumLevel, bgmStage and the transport
position all reset. -/
theorem C4_stage_clear (s : GameState) :
    ((updateOnCorrect s).stageCleared = true ↔
      ((s.correctTotal + 1) % stageClearEveryCorrect = 0 ∧ 0 < s.correctTotal + 1)) ∧
    ((updateOnCorrect s).stageCleared = true →
      (updateOnCorrect s).state.difficultyStage = s.difficultyStage + 1 ∧
      (updateOnCorrect s).state.diff = difficultyForStage (s.difficultyStage + 1) ∧
      (updateOnCorrect s).state.stageCorrect = 0 ∧
      (updateOnCorrect s).state.drumLevel = 0 ∧
      (updateOnCorrect s).state.bgmStage = 0 ∧
      (updateOnCorrect s).state.step = 0 ∧
      (updateOnCorrect s).state.barCounter = 0) := by
  unfold updateOnCorrect
  rw [setBgmBump_correctTotal]
  by_cases hc : (s.correctTotal + 1) % stageClearEveryCorrect = 0
  · rw [if_pos hc]
    obtain ⟨f1, f2, f3, f4, f5, f6, f7, f8⟩ :=
      stageClear_fields (setBgmStageFromStageCorrect (bumpOnCorrect s)).1
    constructor
    · exact ⟨fun _ => ⟨hc, Nat.succ_pos _⟩, fun _ => rfl⟩
    · intro _
      refine ⟨?_, ?_, f2, f3, f4, f7, f8⟩
      · rw [f5, setBgmBump_difficultyStage]
      · rw [f6, setBgmBump_difficultyStage]
  · rw [if_neg hc]
    constructor
    · constructor
      · intro hfalse
        exact absurd hfalse (show (false : Bool) ≠ true by decide)
      · intro hcontra
        exact absurd hcontra.1 hc
    · intro hfalse
      exact absurd hfalse (show (false : Bool) ≠ true by decide)

/-- C4 witness: at the concrete state with nineteen correct answers, the
twentieth fires the stage clear, advancing the stage and resetting the
per-stage counter. -/
theorem C4_witness :
    (updateOnCorrect exC4s).stageCleared = true ∧
    (updateOnCorrect exC4s).state.difficultyStage = exC4s.difficultyStage + 1 ∧
    (updateOnCorrect exC4s).state.stageCorrect = 0 :=
  have hc : (updateOnCorrect exC4s).stageCleared = true :=
    (C4_stage_clear exC4s).1.mpr (by decide)
  ⟨hc, ((C4_stage_clear exC4s).2 hc).1, ((C4_stage_clear exC4s).2 hc).2.2.1⟩

/-- C5: the recomputed bgm variation is min(floor(stageCorrect / 5), 3);
when it differs from the current bgmStage, the cue is emitted and the
transport position resets to zero; when it is unchanged, the state is left
exactly as it was and no cue is emitted. -/
theorem C5_bgm_switch (s : GameState) :
    computeBgmStage s.stageCorrect =
      min (s.stageCorrect / bgmSwitchEveryCorrect) bgmStageMax ∧
    (computeBgmStage s.stageCorrect ≠ s.bgmStage →
      (setBgmStageFromStageCorrect s).2 = true ∧
      (setBgmStageFromStageCorrect s).1.bgmStage = computeBgmStage s.stageCorrect ∧
      (setBgmStageFromStageCorrect s).1.step = 0 ∧
      (setBgmStageFromStageCorrect s).1.barCounter = 0) ∧
    (computeBgmStage s.stageCorrect = s.bgmStage →
      (setBgmStageFromStageCorrect s).1 = s ∧ (setBgmStageFromStageCorrect s).2 = false) := by
  refine ⟨rfl, ?_, ?_⟩
  · intro hne
    unfold setBgmStageFromStageCorrect
    rw [if_neg hne]
    exact ⟨rfl, rfl, rfl, rfl⟩
  · intro heq
    unfold setBgmStageFromStageCorrect
    rw [if_pos heq]
    exact ⟨rfl, rfl⟩

/-- C5 witness: at stageCorrect = 5 with bgmStage = 0 the recomputed value
1 differs, so the cue fires and the new bgmStage is the recomputed one. -/
theorem C5_witness :
    (setBgmStageFromStageCorrect exC5s).2 = true ∧
    (setBgmStageFromStageCorrect exC5s).1.bgmStage = computeBgmStage exC5s.stageCorrect :=
  ⟨((C5_bgm_switch exC5s).2.1 (by decide)).1,
    ((C5_bgm_switch exC5s).2.1 (by decide)).2.1⟩

/-- C6: in every reachable state, whenever the generated problem's
operator is division, the dividend equals divisor times answer exactly and
the divisor is nonzero (the reachable profiles all have a positive minimum
operand). -/
theorem C6_division_exact (s : GameState) (rnd : Rand) (h : Reachable s)
    (hop : (buildProblem s rnd).op = "÷") :
    ((buildProblem s rnd).a : Int) =
      ((buildProblem s rnd).b : Int) * (buildProblem s rnd).answer ∧
    (buildProblem s rnd).b ≠ 0 := by
  obtain ⟨_, _, hdiff⟩ := reachable_progInv s h
  have hmin : 1 ≤ s.diff.min := by
    rw [hdiff]
    exact difficultyForStage_min_pos _
  unfold buildProblem at hop ⊢
  by_cases h1 : pickMode s rnd.rMode = "add"
  · rw [if_pos h1] at hop
    exact absurd hop (show ("+" : String) ≠ "÷" by decide)
  rw [if_neg h1] at hop ⊢
  by_cases h2 : pickMode s rnd.rMode = "sub"
  · rw [if_pos h2] at hop
    split at hop <;> exact absurd hop (show ("−" : String) ≠ "÷" by decide)
  rw [if_neg h2] at hop ⊢
  by_cases h3 : pickMode s rnd.rMode = "mul"
  · rw [if_pos h3] at hop
    exact absurd hop (show ("×" : String) ≠ "÷" by decide)
  rw [if_neg h3] at hop ⊢
  by_cases h4 : pickMode s rnd.rMode = "div"
  · rw [if_pos h4]
    constructor
    · show ((randInt s.diff.min s.diff.max rnd.rB2 * randInt s.diff.min s.diff.max rnd.rK :
          Nat) : Int) =
        ((randInt s.diff.min s.diff.max rnd.rB2 : Nat) : Int) *
          ((randInt s.diff.min s.diff.max rnd.rK : Nat) : Int)
      push_cast
      ring
    · show randInt s.diff.min s.diff.max rnd.rB2 ≠ 0
      exact randInt_pos _ _ _ hmin
  · rw [if_neg h4] at hop
    exact absurd hop (show ("+" : String) ≠ "÷" by decide)

/-- C6 witness: at the reachable stage-3 state, a concrete draw selects
division and the produced triple divides exactly with nonzero divisor. -/
theorem C6_witness :
    (buildProblem exC6s exC6rnd).op = "÷" ∧
    ((buildProblem exC6s exC6rnd).a : Int) =
      ((buildProblem exC6s exC6rnd).b : Int) * (buildProblem exC6s exC6rnd).answer ∧
    (buildProblem exC6s exC6rnd).b ≠ 0 :=
  ⟨by decide,
    (C6_division_exact exC6s exC6rnd (reachable_applyCorrect_iter 60) (by decide)).1,
    (C6_division_exact exC6s exC6rnd (reachable_applyCorrect_iter 60) (by decide)).2⟩

/-- C7: the transport invariant stepIndex < 16 and barIndex < 64 is
preserved by scheduleStep and by resetTransport, and wraparound carries:
from step 15 the next position is step 0 with the bar advanced modulo 64,
and from step 15 of bar 63 the next position is step 0 of bar 0. -/
theorem C7_transport_invariant (s : GameState) (ps : PulseState)
    (h1 : s.step < stepsPerBar) (h2 : s.barCounter < barsCycle) :
    (scheduleStep s ps).state.step < stepsPerBar ∧
    (scheduleStep s ps).state.barCounter < barsCycle ∧
    (resetTransport s).step < stepsPerBar ∧
    (resetTransport s).barCounter < barsCycle ∧
    (s.step = 15 →
      (scheduleStep s ps).state.step = 0 ∧
      (scheduleStep s ps).state.barCounter = (s.barCounter + 1) % barsCycle) ∧
    (s.step = 15 ∧ s.barCounter = 63 →
      (scheduleStep s ps).state.step = 0 ∧ (scheduleStep s ps).state.barCounter = 0) := by
  obtain ⟨t1, t2⟩ := scheduleStep_state_transport s ps
  refine ⟨?_, ?_, ?_, ?_, ?_, ?_⟩
  · rw [t1]
    exact advanceTransport_step_lt s
  · rw [t2]
    exact advanceTransport_bar_lt s h2
  · show 0 < stepsPerBar
    unfold stepsPerBar
    omega
  · show 0 < barsCycle
    unfold barsCycle
    omega
  · intro hs
    obtain ⟨w1, w2⟩ := advanceTransport_wrap s hs
    exact ⟨by rw [t1, w1], by rw [t2, w2]⟩
  · intro hsb
    obtain ⟨w1, w2⟩ := advanceTransport_wrap s hsb.1
    refine ⟨by rw [t1, w1], ?_⟩
    rw [t2, w2, hsb.2]
    decide

/-- C7 witness: from the concrete position step 15 of bar 63, one
scheduleStep lands on step 0 of bar 0, inside the bounds. -/
theorem C7_witness :
    (scheduleStep exC7s exC7ps).state.step < stepsPerBar ∧
    (scheduleStep exC7s exC7ps).state.step = 0 ∧
    (scheduleStep exC7s exC7ps).state.barCounter = 0 :=
  ⟨(C7_transport_invariant exC7s exC7ps (by decide) (by decide)).1,
    ((C7_transport_invariant exC7s exC7ps (by decide) (by decide)).2.2.2.2.2
      ⟨rfl, rfl⟩).1,
    ((C7_transport_invariant exC7s exC7ps (by decide) (by decide)).2.2.2.2.2
      ⟨rfl, rfl⟩).2⟩

/-- C8: on a non-muted scheduleStep call a pulse notification is enqueued
iff kick or snare fired, and nothing is enqueued otherwise; the pulse queue
never holds more than one pending timer, hit flags queued while a timer is
pending are merged into it without scheduling a second timer, and firing or
stopping keeps the bound. -/
theorem C8_pulse_coalescing (s : GameState) (ps : PulseState)
    (hm : s.muteSteps = 0) (hp : ps.pendingTimers ≤ 1) :
    (scheduleStep s ps).pulseEnqueued =
      ((scheduleStep s ps).kick || (scheduleStep s ps).snare) ∧
    ((scheduleStep s ps).pulseEnqueued = false → (scheduleStep s ps).pulse = ps) ∧
    (scheduleStep s ps).pulse.pendingTimers ≤ 1 ∧
    (∀ h : Hits,
      (queueUiPulse ps h).pendingTimers ≤ 1 ∧
      (queueUiPulse ps h).hits.kick = (ps.hits.kick || h.kick) ∧
      (queueUiPulse ps h).hits.snare = (ps.hits.snare || h.snare) ∧
      (ps.pendingTimers ≠ 0 → (queueUiPulse ps h).pendingTimers = ps.pendingTimers)) ∧
    (firePulseTimer true ps).1.pendingTimers ≤ 1 ∧
    (stopPulse ps).pendingTimers = 0 := by
  rw [scheduleStep_unmuted _ _ hm]
  refine ⟨rfl, ?_, ?_, ?_, ?_, rfl⟩
  · intro hfalse
    have hcond : (kickHitOn s.step s.bgmStage ||
        (decide (s.drumLevel ≥ 2) && snareHitOn s.step s.barCounter s.bgmStage)) = false :=
      hfalse
    show (if kickHitOn s.step s.bgmStage ||
        (decide (s.drumLevel ≥ 2) && snareHitOn s.step s.barCounter s.bgmStage) then
        queueUiPulse ps
          { kick := kickHitOn s.step s.bgmStage,
            snare := decide (s.drumLevel ≥ 2) && snareHitOn s.step s.barCounter s.bgmStage }
      else ps) = ps
    rw [hcond]
    rfl
  · show (if kickHitOn s.step s.bgmStage ||
        (decide (s.drumLevel ≥ 2) && snareHitOn s.step s.barCounter s.bgmStage) then
        queueUiPulse ps
          { kick := kickHitOn s.step s.bgmStage,
            snare := decide (s.drumLevel ≥ 2) && snareHitOn s.step s.barCounter s.bgmStage }
      else ps).pendingTimers ≤ 1
    split
    · exact queueUiPulse_pending_le _ _ hp
    · exact hp
  · intro hits
    unfold queueUiPulse
    split
    next hnz => exact ⟨hp, rfl, rfl, fun _ => rfl⟩
    next hz =>
      refine ⟨?_, rfl, rfl, ?_⟩
      · show ps.pendingTimers + 1 ≤ 1
        omega
      · intro hnz
        exact absurd hnz hz
  · show ps.pendingTimers - 1 ≤ 1
    omega

/-- C8 witness: a concrete non-muted step with one pending timer keeps the
pending-timer bound and the enqueue flag matches the fired voices. -/
theorem C8_witness :
    (scheduleStep exC8s exC8ps).pulseEnqueued =
      ((scheduleStep exC8s exC8ps).kick || (scheduleStep exC8s exC8ps).snare) ∧
    (scheduleStep exC8s exC8ps).pulse.pendingTimers ≤ 1 ∧
    (stopPulse exC8ps).pendingTimers = 0 :=
  ⟨(C8_pulse_coalescing exC8s exC8ps rfl (by decide)).1,
    (C8_pulse_coalescing exC8s exC8ps rfl (by decide)).2.2.1,
    (C8_pulse_coalescing exC8s exC8ps rfl (by decide)).2.2.2.2.2⟩

/-- C9: an empty input parses to null and a non-integer-literal input to
NaN, and submitting either leaves the whole game state unchanged with the
submission rejected. -/
theorem C9_invalid_input (running : Bool) (s : GameState) (raw : String) :
    (trimChars raw.data = [] → parseAnswer raw = Parsed.null) ∧
    (trimChars raw.data ≠ [] → isIntLitChars (trimChars raw.data) = false →
      parseAnswer raw = Parsed.nan) ∧
    ((parseAnswer raw = Parsed.null ∨ parseAnswer raw = Parsed.nan) →
      checkAnswer running s raw = (s, Outcome.rejected)) := by
  refine ⟨?_, ?_, ?_⟩
  · intro he
    unfold parseAnswer
    rw [if_pos he]
  · intro he hl
    unfold parseAnswer
    rw [if_neg he, if_pos (by rw [hl]; rfl)]
  · intro h
    unfold checkAnswer
    rcases h with h | h <;> rw [h]

/-- C9 witness: the concrete non-numeric input "abc" parses to NaN and is
rejected without touching the state, and the empty input parses to null. -/
theorem C9_witness :
    parseAnswer "abc" = Parsed.nan ∧
    checkAnswer false initState "abc" = (initState, Outcome.rejected) ∧
    parseAnswer "" = Parsed.null :=
  ⟨(C9_invalid_input false initState "abc").2.1 (by decide) (by decide),
    (C9_invalid_input false initState "abc").2.2
      (Or.inr ((C9_invalid_input false initState "abc").2.1 (by decide) (by decide))),
    (C9_invalid_input false initState "").1 rfl⟩

/-- C10: in every reachable state left behind by the progression
operations, stageCorrect equals correctTotal modulo 20, hence stays at
most 19, and the drum level stays at most 1 — the snare tier is never
observable in a post-operation state. -/
theorem C10_stage_correct_mod (s : GameState) (h : Reachable s) :
    s.stageCorrect = s.correctTotal % stageClearEveryCorrect ∧
    s.stageCorrect ≤ 19 ∧ s.drumLevel ≤ 1 ∧ s.drumLevel ≠ 2 := by
  obtain ⟨h1, h2, _⟩ := reachable_progInv s h
  have hlt : s.stageCorrect < 20 := by
    rw [h1]
    unfold stageClearEveryCorrect
    exact Nat.mod_lt _ (by omega)
  have hdl : s.drumLevel ≤ 1 := by
    rw [h2]
    exact computeDrumLevel_lt_two _ (by unfold unlockSnareAt; omega)
  exact ⟨h1, by omega, hdl, by omega⟩

/-- C10 witness: the state after one correct answer from the initial state
satisfies the invariant bounds. -/
theorem C10_witness :
    (updateOnCorrect initState).state.stageCorrect ≤ 19 ∧
    (updateOnCorrect initState).state.drumLevel ≤ 1 :=
  ⟨(C10_stage_correct_mod _ (Reachable.correct initState Reachable.init)).2.1,
    (C10_stage_correct_mod _ (Reachable.correct initState Reachable.init)).2.2.1⟩

end Keisan
